import Mathlib

/-!
Verification of the capture/transcription pipeline of ai-consul-lite.

The definitions below are shallow embeddings of the JavaScript source:
  * `resampleAudio` embeds `resampleAudio` from `src/offscreen/offscreen.js`.
    JavaScript numbers are modelled as exact rationals extended with a NaN
    element (`JSNum`); an out-of-bounds read of a `Float32Array` yields
    `undefined`, and arithmetic on `undefined` yields `NaN`, which the
    `JSNum` operations propagate.  The binary64 divisions that determine the
    ratio and the output length are modelled exactly by `fl64`
    (correctly-rounded 53-bit rounding, ties to even), because their float64
    rounding is observable in the output length at tie inputs.
  * `OffState`, `startCapture`, `stopCapture`, `startKeepAliveAct`,
    `stopKeepAlive` embed the module-level state and functions of
    `src/offscreen/offscreen.js`, including the keep-alive wrappers that
    reassign `startCapture` and `stopCapture` at the bottom of that file.
  * `getInstance`, `workerHandleChunk`, `runChunks` embed the Whisper worker
    (`WhisperPipeline.getInstance` and `self.onmessage`).
  * `workerOnMessage` embeds the `whisperWorker.onmessage` handler installed
    by `startCapture`, and `orchestratorStopsOn` the service worker's
    `CAPTURE_ERROR` branch, the only incoming message that triggers a stop.
-/

/-- A JavaScript number: either NaN or an exact rational value. -/
inductive JSNum where
  | nan : JSNum
  | val : ℚ → JSNum
deriving DecidableEq

/-- JavaScript addition: NaN propagates. -/
def JSNum.add : JSNum → JSNum → JSNum
  | JSNum.val a, JSNum.val b => JSNum.val (a + b)
  | _, _ => JSNum.nan

/-- JavaScript subtraction: NaN propagates. -/
def JSNum.sub : JSNum → JSNum → JSNum
  | JSNum.val a, JSNum.val b => JSNum.val (a - b)
  | _, _ => JSNum.nan

/-- JavaScript multiplication: NaN propagates (in particular `NaN * 0 = NaN`). -/
def JSNum.mul : JSNum → JSNum → JSNum
  | JSNum.val a, JSNum.val b => JSNum.val (a * b)
  | _, _ => JSNum.nan

/-- Reading `a[i]` from a `Float32Array`: an out-of-bounds or negative index
yields `undefined`, which behaves as NaN in any arithmetic. -/
def readSample (a : List ℚ) (i : ℤ) : JSNum :=
  if 0 ≤ i then
    match a.get? i.toNat with
    | some q => JSNum.val q
    | none => JSNum.nan
  else JSNum.nan

/-- The body of the resampling loop for output index `i`, with `r` the rate
quotient: `indexInOld = i * r`, `nearIndex = floor(indexInOld)`,
`fraction = indexInOld - nearIndex`, `nearValue = audioData[nearIndex]`,
`farValue = audioData[nearIndex + 1]` (no bound check), and the result is
`nearValue + (farValue - nearValue) * fraction`. -/
def interpSample (audioData : List ℚ) (r : ℚ) (i : ℕ) : JSNum :=
  (readSample audioData ⌊(i : ℚ) * r⌋).add
    (((readSample audioData (⌊(i : ℚ) * r⌋ + 1)).sub
        (readSample audioData ⌊(i : ℚ) * r⌋)).mul
      (JSNum.val ((i : ℚ) * r - (⌊(i : ℚ) * r⌋ : ℚ))))

/-- Round a rational to the nearest integer, ties to even (the IEEE 754
default rounding used for binary64 arithmetic). -/
def rne (q : ℚ) : ℤ :=
  if q - ⌊q⌋ < 1/2 then ⌊q⌋
  else if 1/2 < q - ⌊q⌋ then ⌊q⌋ + 1
  else if 2 ∣ ⌊q⌋ then ⌊q⌋ else ⌊q⌋ + 1

/-- The exact value of a positive rational correctly rounded to an IEEE 754
binary64 number: 53 significant bits, round to nearest, ties to even.  The
exponent is unbounded (no overflow or subnormals, which sample-rate ratios
and chunk lengths never approach); non-positive input maps to 0. -/
def fl64 (q : ℚ) : ℚ :=
  if q ≤ 0 then 0
  else (rne (q * 2 ^ ((52:ℤ) - Int.log 2 q)) : ℚ) * 2 ^ (Int.log 2 q - (52:ℤ))

/-- Embedding of `resampleAudio(audioData, fromSampleRate, toSampleRate)` from
`src/offscreen/offscreen.js`.  If the rates are equal the input is returned
unchanged.  Otherwise the source computes in binary64:
`ratio = fromSampleRate / toSampleRate` is one rounded division (`fl64`),
`newLength = Math.round(audioData.length / ratio)` is one more rounded
division followed by `Math.round` (exact on the float's value, half up, as is
`round` on `ℚ`; the length itself is an exact binary64 integer).  The samples
are computed by `interpSample` from the same `ratio`; its per-sample
arithmetic is kept in exact rationals (it is exact at every input evaluated
in this file). -/
def resampleAudio (audioData : List ℚ) (fromSampleRate toSampleRate : ℚ) :
    List JSNum :=
  if fromSampleRate = toSampleRate then
    audioData.map JSNum.val
  else
    (List.range ((round (fl64 ((audioData.length : ℚ) /
        fl64 (fromSampleRate / toSampleRate)))).toNat)).map
      (interpSample audioData (fl64 (fromSampleRate / toSampleRate)))

/-- Recorder states of a `MediaRecorder` as used by `offscreen.js`:
`mediaRecorder.start(2000)` puts it in `recording`, `mediaRecorder.stop()`
in `inactive`. -/
inductive RecState where
  | recording : RecState
  | inactive : RecState
deriving DecidableEq

/-- The module-level mutable state of `offscreen.js`: `mediaRecorder` (with
its state when present), and presence of `streamSource`, `audioContext`,
`whisperWorker` and `keepAliveInterval` (each `null` or set). -/
structure OffState where
  mediaRecorder : Option RecState
  streamSource : Bool
  audioContext : Bool
  whisperWorker : Bool
  keepAliveInterval : Bool
deriving DecidableEq

/-- Initial state of the offscreen document: every handle is `null`. -/
def initialOffState : OffState :=
  { mediaRecorder := none, streamSource := false, audioContext := false,
    whisperWorker := false, keepAliveInterval := false }

/-- Messages `offscreen.js` sends to the service worker via
`chrome.runtime.sendMessage`. -/
inductive RuntimeMsg where
  | transcriptReady : String → RuntimeMsg
  | modelLoading : RuntimeMsg
  | captureStarted : RuntimeMsg
  | captureError : String → RuntimeMsg
deriving DecidableEq

/-- Resource-creating actions performed by `startCapture`/`startKeepAlive`:
creating the audio context and graph, the worker, the recorder, and the
keep-alive interval timer. -/
inductive SetupAct where
  | createContext : SetupAct
  | createWorker : SetupAct
  | createRecorder : SetupAct
  | startTimer : SetupAct
deriving DecidableEq

/-- Teardown actions performed by `stopCapture`: `mediaRecorder.stop()`,
`streamSource.disconnect()`, `audioContext.close()`,
`whisperWorker.terminate()`. -/
inductive TeardownAct where
  | stopRecorder : TeardownAct
  | disconnectSource : TeardownAct
  | closeContext : TeardownAct
  | terminateWorker : TeardownAct
deriving DecidableEq

/-- Embedding of the original `startCapture(streamId)` (before the keep-alive
wrapper).  If the recorder is already recording it returns immediately.
Otherwise `getUserMedia` either succeeds (`acquireOk`), after which the audio
context and graph are built, the worker is created only if absent, and a new
recorder is created and started; or it throws, in which case the `catch`
block sends `CAPTURE_ERROR` with the error message and touches no state. -/
def startCaptureOrig (s : OffState) (acquireOk : Bool) (errMsg : String) :
    OffState × List RuntimeMsg × List SetupAct :=
  if s.mediaRecorder = some RecState.recording then (s, [], [])
  else if acquireOk then
    ({ mediaRecorder := some RecState.recording, streamSource := true,
       audioContext := true, whisperWorker := true,
       keepAliveInterval := s.keepAliveInterval },
     [],
     SetupAct.createContext ::
       ((if s.whisperWorker then [] else [SetupAct.createWorker]) ++
         [SetupAct.createRecorder]))
  else (s, [RuntimeMsg.captureError errMsg], [])

/-- Embedding of `startKeepAlive()`: if the interval timer is already running
it returns; otherwise it creates the 20-second interval timer. -/
def startKeepAliveAct (s : OffState) : OffState × List SetupAct :=
  if s.keepAliveInterval then (s, [])
  else ({ s with keepAliveInterval := true }, [SetupAct.startTimer])

/-- Embedding of `stopKeepAlive()`: clears the interval timer only if it is
set. -/
def stopKeepAlive (s : OffState) : OffState :=
  if s.keepAliveInterval then { s with keepAliveInterval := false } else s

/-- The `startCapture` actually installed at the bottom of `offscreen.js`:
it awaits the original `startCapture` (which never throws, its body being
wrapped in try/catch) and then unconditionally calls `startKeepAlive()`. -/
def startCapture (s : OffState) (acquireOk : Bool) (errMsg : String) :
    OffState × List RuntimeMsg × List SetupAct :=
  ((startKeepAliveAct (startCaptureOrig s acquireOk errMsg).1).1,
   (startCaptureOrig s acquireOk errMsg).2.1,
   (startCaptureOrig s acquireOk errMsg).2.2 ++
     (startKeepAliveAct (startCaptureOrig s acquireOk errMsg).1).2)

/-- Embedding of the original `stopCapture()`: stops the recorder only if it
is actively recording (the variable itself is not cleared, its state becomes
`inactive`), disconnects the stream source only if present, closes the audio
context only if present, terminates the worker only if present, and nulls
those three handles. -/
def stopCaptureOrig (s : OffState) : OffState × List TeardownAct :=
  ({ mediaRecorder :=
       match s.mediaRecorder with
       | some RecState.recording => some RecState.inactive
       | other => other,
     streamSource := false, audioContext := false, whisperWorker := false,
     keepAliveInterval := s.keepAliveInterval },
   (if s.mediaRecorder = some RecState.recording then [TeardownAct.stopRecorder]
     else []) ++
     (if s.streamSource then [TeardownAct.disconnectSource] else []) ++
     (if s.audioContext then [TeardownAct.closeContext] else []) ++
     (if s.whisperWorker then [TeardownAct.terminateWorker] else []))

/-- The `stopCapture` actually installed: the original `stopCapture` followed
by `stopKeepAlive()`. -/
def stopCapture (s : OffState) : OffState × List TeardownAct :=
  (stopKeepAlive (stopCaptureOrig s).1, (stopCaptureOrig s).2)

/-- Status strings posted by the Whisper worker via `self.postMessage`. -/
inductive WStatus where
  | model_loading : WStatus
  | model_ready : WStatus
  | model_error : WStatus
  | transcription_error : WStatus
deriving DecidableEq

/-- A message posted by the worker: the relevant fields `text`, `status` and
`error`, each possibly absent. -/
structure WorkerEvent where
  text : Option String
  status : Option WStatus
  error : Option String
deriving DecidableEq

/-- The `status: model_loading` event. -/
def modelLoadingEv : WorkerEvent := ⟨none, some WStatus.model_loading, none⟩

/-- The `status: model_ready` event. -/
def modelReadyEv : WorkerEvent := ⟨none, some WStatus.model_ready, none⟩

/-- Embedding of `WhisperPipeline.getInstance`: if the singleton is already
set it is returned; otherwise a `model_loading` message is posted and the
pipeline is constructed.  Construction failure (modelled by `loadOk = false`
with thrown message `loadErr`) posts `model_error` and rethrows, leaving the
singleton unset.  Returns the new singleton slot, the posted events, and
either the pipeline or the thrown error. -/
def getInstance (inst : Option Unit) (loadOk : Bool) (loadErr : String) :
    Option Unit × List WorkerEvent × Except String Unit :=
  match inst with
  | some m => (some m, [], Except.ok m)
  | none =>
    if loadOk then (some (), [modelLoadingEv], Except.ok ())
    else (none,
          [modelLoadingEv, ⟨none, some WStatus.model_error, some loadErr⟩],
          Except.error loadErr)

/-- Outcome of one `transcriber(audio, ...)` call: a transcript whose `text`
field is the given string, or a thrown error. -/
inductive InferOutcome where
  | ok : String → InferOutcome
  | fail : String → InferOutcome
deriving DecidableEq

/-- JavaScript `String.prototype.trim()`: strip whitespace from both ends. -/
def jsTrim (s : String) : String :=
  String.mk
    (((s.data.dropWhile Char.isWhitespace).reverse.dropWhile
        Char.isWhitespace).reverse)

/-- The final event the worker posts for one chunk once the model is
available: `{ text: transcript.text.trim() }` when `transcript.text` is
truthy, `{ text: "" }` otherwise, or `{ status: transcription_error }` when
the transcriber throws. -/
def chunkResultEv : InferOutcome → WorkerEvent
  | InferOutcome.ok t =>
    if t = "" then ⟨some "", none, none⟩ else ⟨some (jsTrim t), none, none⟩
  | InferOutcome.fail e => ⟨none, some WStatus.transcription_error, some e⟩

/-- Embedding of the worker's `self.onmessage` for one audio chunk: get the
singleton (a load failure thrown out of `getInstance` is caught by the
handler's own catch, which posts `transcription_error`), post `model_ready`,
run inference, and post the chunk result event. -/
def workerHandleChunk (inst : Option Unit) (loadOk : Bool) (loadErr : String)
    (outcome : InferOutcome) : Option Unit × List WorkerEvent :=
  match getInstance inst loadOk loadErr with
  | (inst2, evs, Except.error e) =>
    (inst2, evs ++ [⟨none, some WStatus.transcription_error, some e⟩])
  | (inst2, evs, Except.ok _) =>
    (inst2, evs ++ [modelReadyEv, chunkResultEv outcome])

/-- Run the worker over a sequence of chunks, threading the singleton slot
and collecting all posted events in order. -/
def runChunks (inst : Option Unit) (loadOk : Bool) (loadErr : String) :
    List InferOutcome → Option Unit × List WorkerEvent
  | [] => (inst, [])
  | o :: os =>
    ((runChunks (workerHandleChunk inst loadOk loadErr o).1 loadOk loadErr os).1,
     (workerHandleChunk inst loadOk loadErr o).2 ++
       (runChunks (workerHandleChunk inst loadOk loadErr o).1 loadOk loadErr os).2)

/-- Embedding of `whisperWorker.onmessage` in `offscreen.js`: forwards
`TRANSCRIPT_READY` when `e.data.text` is truthy (a non-empty string), maps
`model_loading` to `MODEL_LOADING` and `model_ready` to `CAPTURE_STARTED`.
No other status (in particular neither `model_error` nor
`transcription_error`) is handled. -/
def workerOnMessage (e : WorkerEvent) : List RuntimeMsg :=
  (match e.text with
   | some t => if t = "" then [] else [RuntimeMsg.transcriptReady t]
   | none => []) ++
  (if e.status = some WStatus.model_loading then [RuntimeMsg.modelLoading]
    else []) ++
  (if e.status = some WStatus.model_ready then [RuntimeMsg.captureStarted]
    else [])

/-- All messages the service worker receives when the offscreen handler
processes a list of worker events. -/
def sessionMsgs (evs : List WorkerEvent) : List RuntimeMsg :=
  (evs.map workerOnMessage).flatten

/-- From `service-worker.js`: of the messages arriving from the offscreen
document, only `CAPTURE_ERROR` makes the orchestrator issue a stop
(its handler calls `stopCapture()`). -/
def orchestratorStopsOn : RuntimeMsg → Bool
  | RuntimeMsg.captureError _ => true
  | _ => false

/-- Predicate picking out `CAPTURE_STARTED` messages. -/
def isCaptureStarted : RuntimeMsg → Bool
  | RuntimeMsg.captureStarted => true
  | _ => false

/-- A failed chunk followed by a successful chunk, run from a loaded model. -/
def failThenOk (e t : String) : Option Unit × List WorkerEvent :=
  runChunks (some ()) true "" [InferOutcome.fail e, InferOutcome.ok t]

/-- C6: if the source sample rate equals the target sample rate, the resampler
returns the input unchanged: the code takes the early-return branch and hands
back its argument, so length and values are preserved (in the source the very
same array object is returned). -/
theorem resample_identity (audioData : List ℚ) (rate : ℚ) :
    resampleAudio audioData rate rate = audioData.map JSNum.val := by
  simp [resampleAudio]

/-- A rational lying in the dyadic interval claimed for `z` determines
`Int.log 2`. -/
lemma int_log2_eq (q : ℚ) (z : ℤ) (h1 : (2:ℚ)^z ≤ q) (h2 : q < (2:ℚ)^(z+1)) :
    Int.log 2 q = z := by
  have hq : 0 < q := lt_of_lt_of_le (zpow_pos two_pos z) h1
  have hcast : ((2:ℕ):ℚ) = 2 := by norm_num
  have ha : z ≤ Int.log 2 q := by
    rw [← Int.zpow_le_iff_le_log (by norm_num) hq, hcast]
    exact h1
  have hb : Int.log 2 q < z + 1 := by
    rw [← Int.lt_zpow_iff_log_lt (by norm_num) hq, hcast]
    exact h2
  omega

/-- Evaluation rule for `fl64`: exhibit the binade `z` and the rounded
53-bit significand `m`. -/
lemma fl64_eval (q : ℚ) (z m : ℤ) (h1 : (2:ℚ)^z ≤ q) (h2 : q < (2:ℚ)^(z+1))
    (h3 : rne (q * 2 ^ ((52:ℤ) - z)) = m) :
    fl64 q = (m:ℚ) * 2 ^ (z - (52:ℤ)) := by
  have hq : 0 < q := lt_of_lt_of_le (zpow_pos two_pos z) h1
  unfold fl64
  rw [if_neg (not_le.mpr hq), int_log2_eq q z h1 h2, h3]

/-- Round-to-nearest is within half a unit. -/
lemma rne_err (q : ℚ) : |(rne q : ℚ) - q| ≤ 1/2 := by
  have hf := Int.floor_le q
  have hc := Int.lt_floor_add_one q
  unfold rne
  split_ifs with h1 h2 h3
  · rw [abs_sub_comm, abs_of_nonneg (by linarith)]
    linarith
  · push_cast
    rw [abs_of_nonneg (by linarith)]
    linarith
  · rw [abs_sub_comm, abs_of_nonneg (by linarith)]
    linarith
  · push_cast
    rw [abs_of_nonneg (by linarith)]
    linarith

/-- Binary64 rounding has relative error at most `2 ^ (-53)`. -/
lemma fl64_err (q : ℚ) (hq : 0 < q) : |fl64 q - q| ≤ q * (2:ℚ)^(-(53:ℤ)) := by
  unfold fl64
  rw [if_neg (not_le.mpr hq)]
  have hz : ((2:ℕ):ℚ) ^ Int.log 2 q ≤ q := Int.zpow_log_le_self (by norm_num) hq
  rw [show ((2:ℕ):ℚ) = 2 by norm_num] at hz
  set z := Int.log 2 q with hzdef
  set y := q * 2 ^ ((52:ℤ) - z) with hydef
  have key : (rne y : ℚ) * 2 ^ (z - (52:ℤ)) - q
      = ((rne y : ℚ) - y) * 2 ^ (z - (52:ℤ)) := by
    rw [sub_mul, hydef, mul_assoc, ← zpow_add₀ (by norm_num : (2:ℚ) ≠ 0)]
    norm_num
  have hzp : (0:ℚ) < 2 ^ (z - (52:ℤ)) := zpow_pos two_pos _
  rw [key, abs_mul, abs_of_pos hzp]
  have h2 : |(rne y : ℚ) - y| * 2 ^ (z - (52:ℤ)) ≤ (1/2) * 2 ^ (z - (52:ℤ)) :=
    mul_le_mul_of_nonneg_right (rne_err y) (le_of_lt hzp)
  have h3 : (1/2 : ℚ) * 2 ^ (z - (52:ℤ)) = 2^z * 2 ^ (-(53:ℤ)) := by
    rw [← zpow_add₀ (by norm_num : (2:ℚ) ≠ 0)]
    rw [show z + -(53:ℤ) = (z - 52) + (-1) from by ring,
      zpow_add₀ (by norm_num : (2:ℚ) ≠ 0)]
    norm_num
    ring
  have h4 : (2:ℚ)^z * 2 ^ (-(53:ℤ)) ≤ q * 2 ^ (-(53:ℤ)) :=
    mul_le_mul_of_nonneg_right hz (le_of_lt (zpow_pos two_pos _))
  calc |(rne y : ℚ) - y| * 2 ^ (z - (52:ℤ)) ≤ (1/2) * 2 ^ (z - (52:ℤ)) := h2
    _ = 2^z * 2 ^ (-(53:ℤ)) := h3
    _ ≤ q * 2 ^ (-(53:ℤ)) := h4

/-- A quantity within relative error `e ≤ 1/2` of a positive quantity is
positive. -/
lemma pos_of_close (r rf e : ℚ) (hr : 0 < r) (hehalf : e ≤ 1/2)
    (h : |rf - r| ≤ r * e) : 0 < rf := by
  obtain ⟨h1, h2⟩ := abs_le.mp h
  nlinarith

/-- Propagating one relative-error-`e` divisor and one relative-error-`e`
rounding through a quotient keeps the result within relative error `4e`. -/
lemma quot_err_abstract (Lq r rf fA e : ℚ) (hL : 0 < Lq) (hr : 0 < r)
    (hepos : 0 < e) (hehalf : e ≤ 1/2)
    (hrf : |rf - r| ≤ r * e)
    (hfA : |fA - Lq / rf| ≤ (Lq / rf) * e) :
    |fA - Lq / r| ≤ (Lq / r) * (4 * e) := by
  obtain ⟨hrf1, hrf2⟩ := abs_le.mp hrf
  have hfrpos : 0 < rf := pos_of_close r rf e hr hehalf hrf
  set A : ℚ := Lq / rf with hAdef
  set B : ℚ := Lq / r with hBdef
  have hApos : 0 < A := div_pos hL hfrpos
  have hBpos : 0 < B := div_pos hL hr
  have hAr : A * rf = Lq := div_mul_cancel₀ _ (ne_of_gt hfrpos)
  have hBr : B * r = Lq := div_mul_cancel₀ _ (ne_of_gt hr)
  obtain ⟨hfA1, hfA2⟩ := abs_le.mp hfA
  have hAB1 : A * (1 - e) ≤ B := by
    have h5 : A * (r * (1 - e)) ≤ A * rf :=
      mul_le_mul_of_nonneg_left (by linarith) (le_of_lt hApos)
    rw [hAr, ← hBr] at h5
    have h6 : (A * (1 - e)) * r ≤ B * r := by linarith [h5]
    exact le_of_mul_le_mul_right h6 hr
  have hAB2 : B ≤ A * (1 + e) := by
    have h5 : A * rf ≤ A * (r * (1 + e)) :=
      mul_le_mul_of_nonneg_left (by linarith) (le_of_lt hApos)
    rw [hAr, ← hBr] at h5
    have h6 : B * r ≤ (A * (1 + e)) * r := by linarith [h5]
    exact le_of_mul_le_mul_right h6 hr
  have hA2B : A ≤ 2 * B := by
    linarith [mul_le_mul_of_nonneg_left hehalf (le_of_lt hApos)]
  have hAe2Be : A * e ≤ 2 * B * e :=
    mul_le_mul_of_nonneg_right hA2B (le_of_lt hepos)
  rw [abs_le]
  constructor
  · linarith
  · linarith

/-- The binary64 computation of `length / fl64 ratio` stays within relative
error `2 ^ (-51)` of the exact quotient. -/
lemma fl64_quot_err (L : ℕ) (r : ℚ) (hr : 0 < r) :
    |fl64 ((L:ℚ) / fl64 r) - (L:ℚ) / r| ≤ ((L:ℚ) / r) * (2:ℚ)^(-(51:ℤ)) := by
  rcases Nat.eq_zero_or_pos L with hL | hL
  · subst hL
    simp [fl64]
  have hLpos : (0:ℚ) < (L:ℚ) := by exact_mod_cast hL
  have hepos : (0:ℚ) < (2:ℚ)^(-(53:ℤ)) := zpow_pos two_pos _
  have hehalf : (2:ℚ)^(-(53:ℤ)) ≤ 1/2 := by
    rw [show (-(53:ℤ)) = -((53:ℕ):ℤ) from by norm_num, zpow_neg, zpow_natCast]
    rw [show (1:ℚ)/2 = ((2:ℚ)^(1:ℕ))⁻¹ from by norm_num]
    exact inv_anti₀ (by norm_num) (pow_le_pow_right₀ (by norm_num) (by norm_num))
  have hrf := fl64_err r hr
  have hfrpos : 0 < fl64 r := pos_of_close r (fl64 r) _ hr hehalf hrf
  have hfA := fl64_err ((L:ℚ) / fl64 r) (div_pos hLpos hfrpos)
  have h51 : ((L:ℚ) / r) * (2:ℚ)^(-(51:ℤ)) = ((L:ℚ) / r) * (4 * (2:ℚ)^(-(53:ℤ))) := by
    rw [show (-(51:ℤ)) = 2 + -(53:ℤ) from by norm_num,
      zpow_add₀ (by norm_num : (2:ℚ) ≠ 0)]
    norm_num
  rw [h51]
  exact quot_err_abstract (L:ℚ) r (fl64 r) _ _ hLpos hr hepos hehalf hrf hfA

/-- The ratio 48000/32000 is exactly representable in binary64. -/
lemma fl64_ratio_48_32 : fl64 ((48000:ℚ)/32000) = 3/2 := by
  rw [fl64_eval ((48000:ℚ)/32000) 0 6755399441055744 (by norm_num) (by norm_num)
    (by norm_num [rne])]
  norm_num

/-- The binary64 value of the ratio 44100/16000 = 2.75625. -/
lemma fl64_ratio_441_160 :
    fl64 ((44100:ℚ)/16000) = 6206523236469965 / 2251799813685248 := by
  rw [fl64_eval ((44100:ℚ)/16000) 1 6206523236469965 (by norm_num) (by norm_num)
    (by norm_num [rne])]
  norm_num

/-- The binary64 value of the ratio 24000/11025. -/
lemma fl64_ratio_24000_11025 :
    fl64 ((24000:ℚ)/11025) = 4901877145437275 / 2251799813685248 := by
  rw [fl64_eval ((24000:ℚ)/11025) 1 4901877145437275 (by norm_num) (by norm_num)
    (by norm_num [rne])]
  norm_num

/-- C5 counterexample: the length law `round(L / r)` fails at a half-integer
tie.  For 480 input samples at 24000 Hz → 11025 Hz the exact quotient is
exactly 220.5, so the claimed law gives `round(220.5) = 221`; but the program
computes `480 / (24000/11025)` in binary64, obtaining a value just below
220.5, and produces 220 output samples. -/
theorem resample_length_not_exact :
    (resampleAudio (List.replicate 480 0) 24000 11025).length = 220 ∧
    (round (((List.replicate 480 (0:ℚ)).length : ℚ) /
      ((24000:ℚ) / 11025))).toNat = 221 := by
  constructor
  · unfold resampleAudio
    rw [if_neg (by norm_num : (24000:ℚ) ≠ 11025), List.length_map,
      List.length_range, fl64_ratio_24000_11025]
    rw [show (((List.replicate 480 (0:ℚ)).length : ℚ)) = 480 from by norm_num]
    rw [show fl64 ((480:ℚ) / (4901877145437275 / 2251799813685248)) =
        7758154045587455 / 35184372088832 from by
      rw [fl64_eval _ 7 7758154045587455 (by norm_num) (by norm_num)
        (by norm_num [rne])]
      norm_num]
    norm_num [round_eq]
    decide
  · rw [show (((List.replicate 480 (0:ℚ)).length : ℚ)) = 480 from by norm_num]
    norm_num [round_eq]
    decide

/-- C5 amended: for distinct positive rates the output length is exactly
`Math.round` of the binary64-computed quotient `L / fl64(from/to)`, and that
computed quotient lies within relative error `2 ^ (-51)` of the exact
`L / r`; hence the length agrees with `round(L / r)` except when `L / r` is
within that relative distance of a half-integer tie. -/
theorem resample_length_law_f64 (audioData : List ℚ)
    (fromSampleRate toSampleRate : ℚ) (hne : fromSampleRate ≠ toSampleRate)
    (hf : 0 < fromSampleRate) (ht : 0 < toSampleRate) :
    (resampleAudio audioData fromSampleRate toSampleRate).length =
      (round (fl64 ((audioData.length : ℚ) /
        fl64 (fromSampleRate / toSampleRate)))).toNat ∧
    |fl64 ((audioData.length : ℚ) / fl64 (fromSampleRate / toSampleRate)) -
        (audioData.length : ℚ) / (fromSampleRate / toSampleRate)| ≤
      ((audioData.length : ℚ) / (fromSampleRate / toSampleRate)) *
        (2:ℚ)^(-(51:ℤ)) := by
  constructor
  · unfold resampleAudio
    rw [if_neg hne, List.length_map, List.length_range]
  · exact fl64_quot_err audioData.length (fromSampleRate / toSampleRate)
      (div_pos hf ht)

/-- C5 amended witness: at 441 samples, 44100 Hz → 16000 Hz, the hypotheses
hold, the law applies, and the binary64 computation still yields exactly 160
samples (the float64 quotient rounds back to 160). -/
theorem resample_length_law_f64_witness :
    ((44100:ℚ) ≠ 16000 ∧ (0:ℚ) < 44100 ∧ (0:ℚ) < 16000) ∧
    (resampleAudio (List.replicate 441 0) 44100 16000).length =
      (round (fl64 (((List.replicate 441 (0:ℚ)).length : ℚ) /
        fl64 ((44100:ℚ) / 16000)))).toNat ∧
    (resampleAudio (List.replicate 441 0) 44100 16000).length = 160 := by
  have h := resample_length_law_f64 (List.replicate 441 0) 44100 16000
    (by norm_num) (by norm_num) (by norm_num)
  refine ⟨⟨by norm_num, by norm_num, by norm_num⟩, h.1, ?_⟩
  rw [h.1]
  rw [show (((List.replicate 441 (0:ℚ)).length : ℚ)) = 441 from by norm_num]
  rw [fl64_ratio_441_160]
  rw [show fl64 ((441:ℚ) / (6206523236469965 / 2251799813685248)) = 160 from by
    rw [fl64_eval _ 7 5629499534213120 (by norm_num) (by norm_num)
      (by norm_num [rne])]
    norm_num]
  norm_num [round_eq]
  decide

/-- C1: the code has no boundary clamp.  For input `[1, 1, 1, 1]` at
48000 Hz → 32000 Hz the output has 3 samples, and the last one reads
`audioData[4]`, which is `undefined`, so the last output sample is NaN rather
than a well-defined interpolation of two existing input samples.  (The copy of
`resampleAudio` in `tests/voice-feature.test.js` carries the clamp
`audioData[nearIndex + 1] || nearValue`; the production function omits it.) -/
theorem resample_overruns_input :
    resampleAudio [1, 1, 1, 1] 48000 32000 =
      [JSNum.val 1, JSNum.val 1, JSNum.nan] := by
  have hne : (48000 : ℚ) ≠ 32000 := by norm_num
  unfold resampleAudio
  rw [if_neg hne, fl64_ratio_48_32]
  rw [show ((([1, 1, 1, 1] : List ℚ).length : ℚ)) = 4 from by norm_num]
  rw [show fl64 ((4:ℚ) / (3/2)) = 6004799503160661 / 2251799813685248 from by
    rw [fl64_eval _ 1 6004799503160661 (by norm_num) (by norm_num)
      (by norm_num [rne])]
    norm_num]
  have hlen : (round ((6004799503160661:ℚ) / 2251799813685248)).toNat = 3 := by
    norm_num [round_eq]
    decide
  rw [hlen]
  have h0 : interpSample [1, 1, 1, 1] ((3:ℚ)/2) 0 = JSNum.val 1 := by
    unfold interpSample
    rw [show (⌊(((0:ℕ)) : ℚ) * ((3:ℚ)/2)⌋ : ℤ) = 0 by norm_num]
    rw [show readSample [1, 1, 1, 1] ((0:ℤ) + 1) = JSNum.val 1 from rfl,
        show readSample [1, 1, 1, 1] (0:ℤ) = JSNum.val 1 from rfl]
    simp only [JSNum.add, JSNum.sub, JSNum.mul, JSNum.val.injEq]
    ring
  have h1 : interpSample [1, 1, 1, 1] ((3:ℚ)/2) 1 = JSNum.val 1 := by
    unfold interpSample
    rw [show (⌊(((1:ℕ)) : ℚ) * ((3:ℚ)/2)⌋ : ℤ) = 1 by norm_num]
    rw [show readSample [1, 1, 1, 1] ((1:ℤ) + 1) = JSNum.val 1 from rfl,
        show readSample [1, 1, 1, 1] (1:ℤ) = JSNum.val 1 from rfl]
    simp only [JSNum.add, JSNum.sub, JSNum.mul, JSNum.val.injEq]
    ring
  have h2 : interpSample [1, 1, 1, 1] ((3:ℚ)/2) 2 = JSNum.nan := by
    unfold interpSample
    rw [show (⌊(((2:ℕ)) : ℚ) * ((3:ℚ)/2)⌋ : ℤ) = 3 by norm_num]
    rw [show readSample [1, 1, 1, 1] ((3:ℤ) + 1) = JSNum.nan from rfl,
        show readSample [1, 1, 1, 1] (3:ℤ) = JSNum.val 1 from rfl]
    rfl
  rw [show List.range 3 = [0, 1, 2] from rfl]
  simp only [List.map_cons, List.map_nil, h0, h1, h2]

/-- C7: stop is idempotent.  Calling `stopCapture` on the initial state (when
nothing is running) changes nothing and issues no teardown call, and from any
state whatsoever a second consecutive `stopCapture` changes nothing and
issues no teardown call, since every step null-checks its resource. -/
theorem stopCapture_idempotent :
    stopCapture initialOffState = (initialOffState, []) ∧
    ∀ s : OffState, stopCapture (stopCapture s).1 = ((stopCapture s).1, []) := by
  refine ⟨rfl, ?_⟩
  intro s
  obtain ⟨mr, ss, ac, ww, ka⟩ := s
  cases mr with
  | none => cases ss <;> cases ac <;> cases ww <;> cases ka <;> rfl
  | some r => cases r <;> cases ss <;> cases ac <;> cases ww <;> cases ka <;> rfl

/-- C8: double start is a no-op.  If the recorder is already recording (and,
as after every completed start, the keep-alive timer is set), `startCapture`
returns immediately: the state is unchanged, no message is sent, and no
recorder, worker, context or timer is created. -/
theorem startCapture_double_noop (s : OffState) (acquireOk : Bool) (errMsg : String)
    (hrec : s.mediaRecorder = some RecState.recording)
    (hka : s.keepAliveInterval = true) :
    startCapture s acquireOk errMsg = (s, [], []) := by
  simp [startCapture, startCaptureOrig, startKeepAliveAct, hrec, hka]

/-- C8 witness: after one successful start from the initial state the
recorder is recording and the timer set, and a second start returns the state
untouched with no message and no resource creation. -/
theorem startCapture_double_noop_witness :
    (startCapture initialOffState true "id1").1.mediaRecorder = some RecState.recording ∧
    (startCapture initialOffState true "id1").1.keepAliveInterval = true ∧
    startCapture (startCapture initialOffState true "id1").1 true "id2" =
      ((startCapture initialOffState true "id1").1, [], []) := by
  exact ⟨rfl, rfl, startCapture_double_noop _ true "id2" rfl rfl⟩

/-- C2 counterexample: a failed `startCapture` still starts the heartbeat.
From the initial state, when stream acquisition fails, the installed wrapper
runs `startKeepAlive()` after the original function has caught the error, so
the keep-alive timer is running although no recorder exists and
`CAPTURE_ERROR` was sent. -/
theorem heartbeat_runs_after_failed_start :
    (startCapture initialOffState false "denied").1.keepAliveInterval = true ∧
    (startCapture initialOffState false "denied").1.mediaRecorder = none ∧
    (startCapture initialOffState false "denied").2.1 =
      [RuntimeMsg.captureError "denied"] := by
  exact ⟨rfl, rfl, rfl⟩

/-- After `startKeepAlive` the timer is set, whatever the state was. -/
lemma startKeepAliveAct_ka (s : OffState) :
    (startKeepAliveAct s).1.keepAliveInterval = true := by
  unfold startKeepAliveAct
  by_cases h : s.keepAliveInterval <;> simp [h]

/-- If the timer is already set, `startKeepAlive` is a pure no-op. -/
lemma startKeepAliveAct_of_ka (s : OffState) (h : s.keepAliveInterval = true) :
    startKeepAliveAct s = (s, []) := by
  unfold startKeepAliveAct
  rw [if_pos h]

/-- The original `startCapture` never touches the keep-alive field. -/
lemma startCaptureOrig_ka (s : OffState) (acquireOk : Bool) (errMsg : String) :
    (startCaptureOrig s acquireOk errMsg).1.keepAliveInterval =
      s.keepAliveInterval := by
  unfold startCaptureOrig
  split_ifs <;> rfl

/-- The original `startCapture` never creates a timer. -/
lemma startTimer_not_in_orig (s : OffState) (acquireOk : Bool) (errMsg : String) :
    SetupAct.startTimer ∉ (startCaptureOrig s acquireOk errMsg).2.2 := by
  unfold startCaptureOrig
  split_ifs <;> simp

/-- After `stopKeepAlive` the timer is clear, whatever the state was. -/
lemma stopKeepAlive_ka (s : OffState) :
    (stopKeepAlive s).keepAliveInterval = false := by
  unfold stopKeepAlive
  by_cases h : s.keepAliveInterval <;> simp [h]

/-- C2 amended: the keep-alive timer is set after every completed
`startCapture` invocation — successful or failed — never duplicated (if
already running, no new timer is created), and every `stopCapture` (the
routine all stop paths invoke) clears it. -/
theorem keepAlive_lifecycle (s : OffState) (acquireOk : Bool) (errMsg : String) :
    (startCapture s acquireOk errMsg).1.keepAliveInterval = true ∧
    (s.keepAliveInterval = true →
      SetupAct.startTimer ∉ (startCapture s acquireOk errMsg).2.2) ∧
    (stopCapture s).1.keepAliveInterval = false := by
  refine ⟨startKeepAliveAct_ka _, ?_, stopKeepAlive_ka _⟩
  intro hka
  have h1 : (startCaptureOrig s acquireOk errMsg).1.keepAliveInterval = true := by
    rw [startCaptureOrig_ka]
    exact hka
  unfold startCapture
  rw [startKeepAliveAct_of_ka _ h1]
  simpa using startTimer_not_in_orig s acquireOk errMsg

/-- C2 amended witness: in a live session (recorder recording, timer set) a
further start creates no second timer, and stop clears the timer. -/
theorem keepAlive_lifecycle_witness :
    SetupAct.startTimer ∉
      (startCapture
        { mediaRecorder := some RecState.recording, streamSource := true,
          audioContext := true, whisperWorker := true, keepAliveInterval := true }
        true "x").2.2 ∧
    (stopCapture
        { mediaRecorder := some RecState.recording, streamSource := true,
          audioContext := true, whisperWorker := true, keepAliveInterval := true
        }).1.keepAliveInterval = false := by
  exact ⟨(keepAlive_lifecycle _ true "x").2.1 rfl, (keepAlive_lifecycle _ true "x").2.2⟩

/-- `sessionMsgs` on the empty event list. -/
lemma sessionMsgs_nil : sessionMsgs [] = [] := rfl

/-- `sessionMsgs` distributes over cons. -/
lemma sessionMsgs_cons (e : WorkerEvent) (evs : List WorkerEvent) :
    sessionMsgs (e :: evs) = workerOnMessage e ++ sessionMsgs evs := by
  simp [sessionMsgs]

/-- `sessionMsgs` distributes over append. -/
lemma sessionMsgs_append (a b : List WorkerEvent) :
    sessionMsgs (a ++ b) = sessionMsgs a ++ sessionMsgs b := by
  simp [sessionMsgs]

/-- The offscreen handler maps `model_ready` to `CAPTURE_STARTED`. -/
lemma workerOnMessage_ready :
    workerOnMessage modelReadyEv = [RuntimeMsg.captureStarted] := rfl

/-- The offscreen handler maps `model_loading` to `MODEL_LOADING`. -/
lemma workerOnMessage_loading :
    workerOnMessage modelLoadingEv = [RuntimeMsg.modelLoading] := rfl

/-- The offscreen handler ignores `transcription_error` events entirely. -/
lemma workerOnMessage_terr (e : String) :
    workerOnMessage ⟨none, some WStatus.transcription_error, some e⟩ = [] := rfl

/-- With the model singleton set, a chunk posts `model_ready` and its result
event, and leaves the singleton set. -/
lemma workerHandleChunk_loaded (loadOk : Bool) (loadErr : String) (o : InferOutcome) :
    workerHandleChunk (some ()) loadOk loadErr o =
      (some (), [modelReadyEv, chunkResultEv o]) := rfl

/-- A chunk result event never yields `CAPTURE_STARTED`. -/
lemma countP_captureStarted_chunkResult (o : InferOutcome) :
    (workerOnMessage (chunkResultEv o)).countP isCaptureStarted = 0 := by
  cases o with
  | ok t =>
    by_cases h : t = ""
    · subst h
      rfl
    · by_cases h2 : jsTrim t = "" <;>
        simp [chunkResultEv, workerOnMessage, h, h2, isCaptureStarted,
          List.countP_cons]
  | fail e => rfl

/-- The `CAPTURE_STARTED` count of the forwarded `model_ready` event is 1. -/
lemma countP_captureStarted_ready :
    (workerOnMessage modelReadyEv).countP isCaptureStarted = 1 := rfl

/-- The forwarded `model_loading` event contributes no `CAPTURE_STARTED`. -/
lemma countP_captureStarted_loading :
    (workerOnMessage modelLoadingEv).countP isCaptureStarted = 0 := rfl

/-- With the model loaded, every processed chunk contributes exactly one
`CAPTURE_STARTED`. -/
lemma captureStarted_count_loaded (os : List InferOutcome) :
    (sessionMsgs (runChunks (some ()) true "" os).2).countP isCaptureStarted =
      os.length := by
  induction os with
  | nil => rfl
  | cons o os ih =>
    simp only [runChunks, workerHandleChunk_loaded, List.cons_append,
      List.nil_append, sessionMsgs_append, sessionMsgs_cons, sessionMsgs_nil,
      List.countP_append, List.countP_nil, countP_captureStarted_ready,
      countP_captureStarted_chunkResult, ih, List.length_cons]
    omega

/-- C4 counterexample: a fresh session that processes two chunks sends
`CAPTURE_STARTED` twice — once per chunk — not once per session, because the
worker posts `model_ready` on every chunk and the offscreen handler maps each
one to `CAPTURE_STARTED`. -/
theorem captureStarted_not_once_per_session :
    (sessionMsgs (runChunks none true ""
        [InferOutcome.ok "", InferOutcome.ok ""]).2).countP isCaptureStarted =
      2 := rfl

/-- C4 amended: in a session whose model loads successfully, `model_ready` is
posted on every successfully processed chunk, so the Capture Context sends
`CAPTURE_STARTED` exactly once per chunk — `n` times for `n` chunks — rather
than once per session. -/
theorem captureStarted_per_chunk (ts : List String) :
    (sessionMsgs (runChunks none true "" (ts.map InferOutcome.ok)).2).countP
        isCaptureStarted = ts.length := by
  cases ts with
  | nil => rfl
  | cons t rest =>
    have hfresh : workerHandleChunk none true "" (InferOutcome.ok t) =
        (some (), [modelLoadingEv, modelReadyEv,
          chunkResultEv (InferOutcome.ok t)]) := rfl
    simp only [List.map_cons, runChunks, hfresh, List.cons_append,
      List.nil_append, sessionMsgs_append, sessionMsgs_cons, sessionMsgs_nil,
      List.countP_append, List.countP_nil, countP_captureStarted_ready,
      countP_captureStarted_loading, countP_captureStarted_chunkResult,
      captureStarted_count_loaded, List.length_cons, List.length_map]
    omega

/-- C3 counterexample: when pipeline construction fails on first
initialization, the worker posts `model_loading`, `model_error` and
`transcription_error`, but the offscreen handler forwards only
`MODEL_LOADING`: no `CAPTURE_ERROR` reaches the orchestrator, so no teardown
is triggered. -/
theorem model_error_not_propagated :
    sessionMsgs (workerHandleChunk none false "model load failed"
        (InferOutcome.ok "")).2 = [RuntimeMsg.modelLoading] := rfl

/-- C3 amended: on first-initialization failure the engine does emit
`model_error` and does propagate the thrown error to its caller (whose catch
additionally posts `transcription_error`), but the Capture Context has no
handler for `model_error`: the orchestrator receives only `MODEL_LOADING`,
never `CAPTURE_ERROR`, and hence never tears the session down. -/
theorem model_error_amended (loadErr : String) :
    (getInstance none false loadErr).2.2 = Except.error loadErr ∧
    (workerHandleChunk none false loadErr (InferOutcome.ok "")).2 =
      [modelLoadingEv, ⟨none, some WStatus.model_error, some loadErr⟩,
       ⟨none, some WStatus.transcription_error, some loadErr⟩] ∧
    sessionMsgs (workerHandleChunk none false loadErr (InferOutcome.ok "")).2 =
      [RuntimeMsg.modelLoading] ∧
    ((sessionMsgs (workerHandleChunk none false loadErr
        (InferOutcome.ok "")).2).all (fun m => !(orchestratorStopsOn m))) =
      true := by
  exact ⟨rfl, rfl, rfl, rfl⟩

/-- C9: a per-chunk transcription failure is non-fatal.  After a failed chunk
the model singleton is still set, the worker posted `transcription_error`
with the failure message, the next chunk still produces its transcript, and
no message of the whole run makes the orchestrator stop the session. -/
theorem chunk_failure_nonfatal (e t : String) (h : jsTrim t ≠ "") :
    (failThenOk e t).1 = some () ∧
    WorkerEvent.mk none (some WStatus.transcription_error) (some e) ∈
      (failThenOk e t).2 ∧
    RuntimeMsg.transcriptReady (jsTrim t) ∈ sessionMsgs (failThenOk e t).2 ∧
    ((sessionMsgs (failThenOk e t).2).all
        (fun m => !(orchestratorStopsOn m))) = true := by
  have ht : t ≠ "" := by
    intro h0
    apply h
    rw [h0]
    rfl
  have hev : (failThenOk e t).2 =
      [modelReadyEv, ⟨none, some WStatus.transcription_error, some e⟩,
       modelReadyEv, chunkResultEv (InferOutcome.ok t)] := rfl
  have hres : workerOnMessage (chunkResultEv (InferOutcome.ok t)) =
      [RuntimeMsg.transcriptReady (jsTrim t)] := by
    simp [chunkResultEv, workerOnMessage, ht, h]
  have hmsgs : sessionMsgs (failThenOk e t).2 =
      [RuntimeMsg.captureStarted, RuntimeMsg.captureStarted,
       RuntimeMsg.transcriptReady (jsTrim t)] := by
    rw [hev, sessionMsgs_cons, sessionMsgs_cons, sessionMsgs_cons,
      sessionMsgs_cons, sessionMsgs_nil, hres, workerOnMessage_ready,
      workerOnMessage_terr]
    rfl
  refine ⟨rfl, ?_, ?_, ?_⟩
  · rw [hev]
    simp
  · rw [hmsgs]
    simp
  · rw [hmsgs]
    rfl

/-- C9 witness: a failing chunk followed by a chunk transcribing to `hello`
leaves the engine loaded, reports the error, and still delivers `hello`. -/
theorem chunk_failure_nonfatal_witness :
    jsTrim "hello" ≠ "" ∧
    ((failThenOk "boom" "hello").1 = some () ∧
     WorkerEvent.mk none (some WStatus.transcription_error) (some "boom") ∈
       (failThenOk "boom" "hello").2 ∧
     RuntimeMsg.transcriptReady (jsTrim "hello") ∈
       sessionMsgs (failThenOk "boom" "hello").2 ∧
     ((sessionMsgs (failThenOk "boom" "hello").2).all
         (fun m => !(orchestratorStopsOn m))) = true) := by
  exact ⟨by decide, chunk_failure_nonfatal "boom" "hello" (by decide)⟩

/-- C10: empty transcripts are filtered at the Capture Context boundary.  For
a processed chunk, `TRANSCRIPT_READY` with the trimmed text is sent to the
orchestrator precisely when the trimmed text is non-empty, and the
empty-string worker result `{ text: "" }` produces no message at all. -/
theorem transcript_forwarded_iff (t : String) :
    (RuntimeMsg.transcriptReady (jsTrim t) ∈
        sessionMsgs (workerHandleChunk (some ()) true ""
          (InferOutcome.ok t)).2 ↔ jsTrim t ≠ "") ∧
    workerOnMessage ⟨some "", none, none⟩ = [] := by
  refine ⟨?_, rfl⟩
  have hev : (workerHandleChunk (some ()) true "" (InferOutcome.ok t)).2 =
      [modelReadyEv, chunkResultEv (InferOutcome.ok t)] := rfl
  rw [hev, sessionMsgs_cons, sessionMsgs_cons, sessionMsgs_nil,
    workerOnMessage_ready]
  by_cases h0 : t = ""
  · subst h0
    simp [chunkResultEv, workerOnMessage, show jsTrim "" = "" from rfl]
  · by_cases h1 : jsTrim t = "" <;>
      simp [chunkResultEv, workerOnMessage, h0, h1]
